import Mathlib

/-!
Verification of the Tempus fiscal-year library (`fiscal.py`).

The development shallowly embeds the two core components of the repository,
`FiscalYear` and `FederalHoliday`, over an explicit model of the CPython
`datetime` values they manipulate.  The embedding distinguishes the three
value kinds that occur in the source, because their interaction decides
several properties:

* `Date` models `datetime.date` (a civil triple year/month/day),
* `PyDateTime` models `datetime.datetime` (constructed at midnight by
  `_bind`, e.g. `datetime(d.year, 10, 1)`),
* `Timedelta` models `datetime.timedelta` (the result of subtracting two
  dates).

CPython semantics embedded here and checked against the interpreter:

* `date - datetime` and `datetime - date` raise `TypeError`
  (`date.__sub__` returns `NotImplemented` whenever either operand is a
  `datetime`, and `datetime.__sub__` requires a `datetime` or `timedelta`
  right operand);
* `date == datetime` evaluates to `False` (a `datetime` is never equal to
  a plain `date`);
* `timedelta + int` raises `TypeError`;
* `max(int, timedelta)` raises `TypeError` (no order between them);
* `None / int` raises `TypeError`;
* `date(y, m, d)` and `datetime(y, m, d)` raise `ValueError` unless
  `1 <= y <= 9999`, `1 <= m <= 12` and `1 <= d <=` days in the month.

Fallible computations are embedded in `Except PyErr`; a method that wraps
its body in `try/except` (reporting to the error dialog and implicitly
returning `None`) is embedded as the `Option` obtained by `Except.toOption`
of its body.
-/

namespace Tempus

/-- Kinds of Python exceptions raised by the embedded fragments. -/
inductive PyErr where
  | typeError : PyErr
  | valueError : PyErr
deriving DecidableEq, Repr

instance {e a : Type} [DecidableEq e] [DecidableEq a] : DecidableEq (Except e a) := fun x y =>
  match x, y with
  | .ok u, .ok v =>
      if h : u = v then .isTrue (by rw [h])
      else .isFalse (fun hc => by cases hc; exact h rfl)
  | .error u, .error v =>
      if h : u = v then .isTrue (by rw [h])
      else .isFalse (fun hc => by cases hc; exact h rfl)
  | .ok _, .error _ => .isFalse (fun hc => by cases hc)
  | .error _, .ok _ => .isFalse (fun hc => by cases hc)

/-- A `datetime.date`: a civil calendar triple. -/
structure Date where
  year : Int
  month : Int
  day : Int
deriving DecidableEq, Repr

/-- A `datetime.datetime` as constructed by `FiscalYear._bind`
(`datetime(y, m, d)`, midnight, naive). The time component is always
zero in this program, so only the civil triple is carried. -/
structure PyDateTime where
  year : Int
  month : Int
  day : Int
deriving DecidableEq, Repr

/-- A `datetime.timedelta` holding a whole number of days (the only
timedeltas this program produces). -/
structure Timedelta where
  days : Int
deriving DecidableEq, Repr

/-- Python `calendar.isleap` / the Gregorian leap-year rule used by
`datetime`. -/
def isLeap (y : Int) : Bool := (y % 4 == 0 && y % 100 != 0) || y % 400 == 0

/-- Number of days in month `m` of year `y` (Gregorian, as in
`calendar.monthrange`). -/
def monthDays (y m : Int) : Int :=
  if m = 2 then (if isLeap y then 29 else 28)
  else if m = 4 ∨ m = 6 ∨ m = 9 ∨ m = 11 then 30
  else 31

/-- Month-dependent part of the proleptic Gregorian day number: for a
valid civil date `(y, m, d)`, `rataDieAux y m + d` is the number of days
since 1970-01-01 (days-from-civil, shifted so that the epoch is day 0).
The formula is the standard era/year-of-era/day-of-year decomposition of
the Gregorian calendar; `d` enters the day number linearly, which the
factoring makes explicit. -/
def rataDieAux (y m : Int) : Int :=
  let yy : Int := if m ≤ 2 then y - 1 else y
  let era : Int := yy / 400
  let yoe : Int := yy - era * 400
  let mp : Int := (m + 9) % 12
  let doy : Int := (153 * mp + 2) / 5
  let doe : Int := yoe * 365 + yoe / 4 - yoe / 100 + doy
  era * 146097 + doe - 719469

/-- Day number of a date, counted from 1970-01-01 = 0.  Models
`date.toordinal()` up to the constant 719163 (`date(1970,1,1).toordinal()`);
differences of ordinals are unaffected by the shift. -/
def Date.toOrd (d : Date) : Int := rataDieAux d.year d.month + d.day

/-- Models `date.weekday()`: Monday = 0 .. Sunday = 6.
1970-01-01 was a Thursday (= 3). -/
def Date.weekday (d : Date) : Int := (d.toOrd + 3) % 7

/-- Day number of a midnight `datetime` (same calendar as `Date.toOrd`). -/
def PyDateTime.toOrd (t : PyDateTime) : Int := rataDieAux t.year t.month + t.day

/-- The date is a valid CPython `datetime.date`: the constructor range
checks of `date(y, m, d)`. -/
def Date.Valid (d : Date) : Prop :=
  1 ≤ d.year ∧ d.year ≤ 9999 ∧ 1 ≤ d.month ∧ d.month ≤ 12 ∧
    1 ≤ d.day ∧ d.day ≤ monthDays d.year d.month

instance (d : Date) : Decidable d.Valid := by
  unfold Date.Valid; infer_instance

/-- Comparison of two `date` objects.  CPython compares by ordinal; for
valid civil triples that order is the lexicographic order on
(year, month, day), which is the form used here. -/
def Date.le (a b : Date) : Prop :=
  a.year < b.year ∨ (a.year = b.year ∧
    (a.month < b.month ∨ (a.month = b.month ∧ a.day ≤ b.day)))

/-- Strict comparison of two `date` objects (lexicographic). -/
def Date.lt (a b : Date) : Prop :=
  a.year < b.year ∨ (a.year = b.year ∧
    (a.month < b.month ∨ (a.month = b.month ∧ a.day < b.day)))

instance : DecidableRel Date.le := by
  intro a b; unfold Date.le; infer_instance

instance : DecidableRel Date.lt := by
  intro a b; unfold Date.lt; infer_instance

instance : LE Date := ⟨Date.le⟩

instance : LT Date := ⟨Date.lt⟩

instance (a b : Date) : Decidable (a ≤ b) := by
  show Decidable (Date.le a b); infer_instance

instance (a b : Date) : Decidable (a < b) := by
  show Decidable (Date.lt a b); infer_instance

/-- Models the CPython constructor `date(y, m, d)`: range-checks its
arguments and raises `ValueError` when they do not form a civil date. -/
def date? (y m d : Int) : Except PyErr Date :=
  if 1 ≤ y ∧ y ≤ 9999 ∧ 1 ≤ m ∧ m ≤ 12 ∧ 1 ≤ d ∧ d ≤ monthDays y m then
    .ok ⟨y, m, d⟩
  else
    .error .valueError

/-- Models the CPython constructor `datetime(y, m, d)` (midnight): the
same range checks as `date`. -/
def datetime? (y m d : Int) : Except PyErr PyDateTime :=
  if 1 ≤ y ∧ y ≤ 9999 ∧ 1 ≤ m ∧ m ≤ 12 ∧ 1 ≤ d ∧ d ≤ monthDays y m then
    .ok ⟨y, m, d⟩
  else
    .error .valueError

/-- Models `d + timedelta(days=1)` on a valid date: step to the next
civil day, rolling over month and year boundaries. -/
def nextDay (d : Date) : Date :=
  if d.day < monthDays d.year d.month then ⟨d.year, d.month, d.day + 1⟩
  else if d.month < 12 then ⟨d.year, d.month + 1, 1⟩
  else ⟨d.year + 1, 1, 1⟩

/-- Models `d - timedelta(days=1)` on a valid date: step to the previous
civil day, rolling over month and year boundaries. -/
def prevDay (d : Date) : Date :=
  if 1 < d.day then ⟨d.year, d.month, d.day - 1⟩
  else if 1 < d.month then ⟨d.year, d.month - 1, monthDays d.year (d.month - 1)⟩
  else ⟨d.year - 1, 12, 31⟩

/-- Models `a - b` for two `date` operands: a `timedelta` of whole days. -/
def pySubDD (a b : Date) : Timedelta := ⟨a.toOrd - b.toOrd⟩

/-- Models `a - b` for two `datetime` operands (both midnight here):
a `timedelta` of whole days. -/
def pySubTT (a b : PyDateTime) : Timedelta := ⟨a.toOrd - b.toOrd⟩

/-- Models `a - b` with `a : date`, `b : datetime`.  CPython raises
`TypeError`: `date.__sub__` returns `NotImplemented` when either operand
is a `datetime`, and `datetime.__sub__` requires its left operand to be a
`datetime`, so the mixed subtraction has no implementation. -/
def pySubDT (_ : Date) (_ : PyDateTime) : Except PyErr Timedelta :=
  .error .typeError

/-- Models `a - b` with `a : datetime`, `b : date`.  CPython raises
`TypeError` (symmetric to `pySubDT`). -/
def pySubTD (_ : PyDateTime) (_ : Date) : Except PyErr Timedelta :=
  .error .typeError

/-- Models `a == b` with `a : date`, `b : datetime`.  CPython evaluates
this to `False`: a `datetime` instance is never equal to a plain `date`,
even on the same calendar day. -/
def pyEqDT (_ : Date) (_ : PyDateTime) : Bool := false

/-- Models `td + n` with `td : timedelta`, `n : int`.  CPython raises
`TypeError` (`timedelta.__add__` accepts only another `timedelta`). -/
def pyAddDeltaInt (_ : Timedelta) (_ : Int) : Except PyErr Int :=
  .error .typeError

/-- Models `max(n, td)` with `n : int`, `td : timedelta`.  CPython raises
`TypeError`: `max` compares the two with `>` and there is no order between
`int` and `timedelta`. -/
def pyMaxIntDelta (_ : Int) (_ : Timedelta) : Except PyErr Int :=
  .error .typeError

/-- Models `None / n` (and, generally, arithmetic on a `None` operand):
`TypeError`.  Used where a method consumes the result of a sibling method
that already failed and returned `None`. -/
def pyDivNone (_ : Int) : Except PyErr Rat :=
  .error .typeError

/-- The bound state of a `FiscalYear` object after a successful `_bind`.
Field names and types follow the source: `date` is the normalized
reference `date` (the `__init__` passes the input through `_to_date`,
which truncates a `datetime` to its date component), while the start/end
boundaries are `datetime` objects because `_bind` builds them with
`datetime(...)`. -/
structure FiscalYear where
  date : Date
  calendar_year : Int
  fiscal_year : Int
  beginning_fiscal_year : Int
  ending_fiscal_year : Int
  cy_start_date : PyDateTime
  cy_end_date : PyDateTime
  fy_start_date : PyDateTime
  fy_end_date : PyDateTime
deriving DecidableEq, Repr

/-- `FiscalYear._bind(d)` for a (normalized, valid) reference date `d`:
recomputes every boundary field.  The `throw_if` guard never fires for an
actual `date` object (dates are always truthy), so the body reduces to
the month test and the `datetime` constructions, in source order.  The
constructions can only raise (`ValueError`) at the representable-year
boundary (reference year 1 with month < 10, or 9999 with month >= 10);
the error is what `_bind` would hand to the error dialog. -/
def FiscalYear.bind (d : Date) : Except PyErr FiscalYear :=
  if 10 ≤ d.month then do
    let fys ← datetime? d.year 10 1
    let fye ← datetime? (d.year + 1) 9 30
    let cys ← datetime? d.year 1 1
    let cye ← datetime? d.year 12 31
    .ok { date := d, calendar_year := d.year,
          fiscal_year := d.year + 1,
          beginning_fiscal_year := d.year,
          ending_fiscal_year := d.year + 1,
          cy_start_date := cys, cy_end_date := cye,
          fy_start_date := fys, fy_end_date := fye }
  else do
    let fys ← datetime? (d.year - 1) 10 1
    let fye ← datetime? d.year 9 30
    let cys ← datetime? d.year 1 1
    let cye ← datetime? d.year 12 31
    .ok { date := d, calendar_year := d.year,
          fiscal_year := d.year,
          beginning_fiscal_year := d.year - 1,
          ending_fiscal_year := d.year,
          cy_start_date := cys, cy_end_date := cye,
          fy_start_date := fys, fy_end_date := fye }

/-- `calendar_day_of_year`: source computes
`(self.date - self.cy_start_date).days + 1`, a `date` minus `datetime`
subtraction; the `try/except` boundary turns the `TypeError` into a
reported error and a `None` result. -/
def FiscalYear.calendar_day_of_year (fy : FiscalYear) : Option Int :=
  (do
    let td ← pySubDT fy.date fy.cy_start_date
    return td.days + 1).toOption

/-- `calendar_days_in_year`: `(cy_end - cy_start).days + 1`, a
`datetime` minus `datetime` subtraction, which succeeds. -/
def FiscalYear.calendar_days_in_year (fy : FiscalYear) : Option Int :=
  some ((pySubTT fy.cy_end_date fy.cy_start_date).days + 1)

/-- `calendar_elapsed_days`: `max(0, (self.date - self.cy_start_date).days)`;
the mixed subtraction raises before `max` is reached. -/
def FiscalYear.calendar_elapsed_days (fy : FiscalYear) : Option Int :=
  (do
    let td ← pySubDT fy.date fy.cy_start_date
    return max 0 td.days).toOption

/-- `calendar_remaining_days`: `max(0, (self.cy_end_date - self.date).days)`;
a `datetime` minus `date` subtraction, which raises. -/
def FiscalYear.calendar_remaining_days (fy : FiscalYear) : Option Int :=
  (do
    let td ← pySubTD fy.cy_end_date fy.date
    return max 0 td.days).toOption

/-- `calendar_elapsed_months`: `max(0, self.date.month - 1)`. -/
def FiscalYear.calendar_elapsed_months (fy : FiscalYear) : Option Int :=
  some (max 0 (fy.date.month - 1))

/-- `calendar_remaining_months`: `12 - self.date.month`. -/
def FiscalYear.calendar_remaining_months (fy : FiscalYear) : Option Int :=
  some (12 - fy.date.month)

/-- `calendar_percent_elapsed`: divides the result of
`calendar_elapsed_days()` (which is `None`) by the day count, so the
division raises `TypeError` and the boundary returns `None`. -/
def FiscalYear.calendar_percent_elapsed (fy : FiscalYear) : Option Rat :=
  (do
    match fy.calendar_elapsed_days with
    | none => (pyDivNone ((pySubTT fy.cy_end_date fy.cy_start_date).days + 1) : Except PyErr Rat)
    | some completed =>
        return ((completed : Rat) / (((pySubTT fy.cy_end_date fy.cy_start_date).days + 1 : Int) : Rat)) * 100).toOption

/-- `fiscal_day_of_year`: source computes `(self.date - self.fy_start_date) + 1`
(note the missing `.days`).  The `date` minus `datetime` subtraction
already raises `TypeError`; had it produced a `timedelta`, adding the
integer 1 would also raise.  Either way the boundary returns `None`. -/
def FiscalYear.fiscal_day_of_year (fy : FiscalYear) : Option Int :=
  (do
    let td ← pySubDT fy.date fy.fy_start_date
    pyAddDeltaInt td 1).toOption

/-- `fiscal_days_in_year`: `(fy_end - fy_start).days + 1`
(`datetime` minus `datetime`, succeeds). -/
def FiscalYear.fiscal_days_in_year (fy : FiscalYear) : Option Int :=
  some ((pySubTT fy.fy_end_date fy.fy_start_date).days + 1)

/-- `fiscal_month_number`: `((m - 10) % 12) + 1` with Python integer `%`
(Euclidean remainder, as Lean `%` on `Int`). -/
def FiscalYear.fiscal_month_number (fy : FiscalYear) : Option Int :=
  some (((fy.date.month - 10) % 12) + 1)

/-- `fiscal_elapsed_days`: `max(0, (self.date - self.fy_start_date))`;
the mixed subtraction raises, and even on two plain dates the `max` of an
`int` and a `timedelta` would raise. -/
def FiscalYear.fiscal_elapsed_days (fy : FiscalYear) : Option Int :=
  (do
    let td ← pySubDT fy.date fy.fy_start_date
    pyMaxIntDelta 0 td).toOption

/-- `fiscal_days_remaining`: `max(0, (self.fy_end_date - self.date).days)`;
a `datetime` minus `date` subtraction, which raises. -/
def FiscalYear.fiscal_days_remaining (fy : FiscalYear) : Option Int :=
  (do
    let td ← pySubTD fy.fy_end_date fy.date
    return max 0 td.days).toOption

/-- `fiscal_elapsed_months`: `fiscal_month_number() - 1`. -/
def FiscalYear.fiscal_elapsed_months (fy : FiscalYear) : Option Int :=
  (do
    match fy.fiscal_month_number with
    | none => (.error .typeError : Except PyErr Int)
    | some m => return m - 1).toOption

/-- `fiscal_remaining_months`: `12 - fiscal_month_number()`. -/
def FiscalYear.fiscal_remaining_months (fy : FiscalYear) : Option Int :=
  (do
    match fy.fiscal_month_number with
    | none => (.error .typeError : Except PyErr Int)
    | some m => return 12 - m).toOption

/-- `fiscal_percent_elapsed`: divides the result of
`fiscal_elapsed_days()` (which is `None`) by the day count, so the
division raises `TypeError` and the boundary returns `None`. -/
def FiscalYear.fiscal_percent_elapsed (fy : FiscalYear) : Option Rat :=
  (do
    match fy.fiscal_elapsed_days with
    | none => (pyDivNone ((pySubTT fy.fy_end_date fy.fy_start_date).days + 1) : Except PyErr Rat)
    | some completed =>
        return ((completed : Rat) / (((pySubTT fy.fy_end_date fy.fy_start_date).days + 1 : Int) : Rat)) * 100).toOption

/-- `is_fiscal_start_year`: `self.date == self.fy_start_date`, a `date`
compared with a `datetime`, which is `False` in CPython regardless of the
calendar day. -/
def FiscalYear.is_fiscal_start_year (fy : FiscalYear) : Option Bool :=
  some (pyEqDT fy.date fy.fy_start_date)

/-- `is_fiscal_end_year`: `self.date == self.fy_end_date` (same mixed
comparison). -/
def FiscalYear.is_fiscal_end_year (fy : FiscalYear) : Option Bool :=
  some (pyEqDT fy.date fy.fy_end_date)

/-- `is_calendar_start_year`: `self.date == self.cy_start_date`. -/
def FiscalYear.is_calendar_start_year (fy : FiscalYear) : Option Bool :=
  some (pyEqDT fy.date fy.cy_start_date)

/-- `is_calendar_end_date`: `self.date == self.cy_end_date`. -/
def FiscalYear.is_calendar_end_date (fy : FiscalYear) : Option Bool :=
  some (pyEqDT fy.date fy.cy_end_date)

/-- `to_dict`: exports the bound fields.  The method has no `try/except`
boundary in the source; on a fully bound instance it cannot fail. -/
def FiscalYear.to_dict (fy : FiscalYear) :
    Date × Int × Int × Int × Int × PyDateTime × PyDateTime × PyDateTime × PyDateTime :=
  (fy.date, fy.calendar_year, fy.fiscal_year, fy.beginning_fiscal_year,
    fy.ending_fiscal_year, fy.cy_start_date, fy.cy_end_date,
    fy.fy_start_date, fy.fy_end_date)

/-- The state of a `FederalHoliday` object: the fiscal-year label and the
two window boundaries, all plain `date` values in the source. -/
structure FederalHoliday where
  fiscal_year : Int
  fy_start_date : Date
  fy_end_date : Date
deriving DecidableEq, Repr

/-- `FederalHoliday.__init__(fiscal_year)`: stores the label and builds
`date(fiscal_year - 1, 10, 1)` and `date(fiscal_year, 9, 30)`.  The
constructor has no `try/except` boundary, so a `ValueError` from an
out-of-range year propagates to the caller. -/
def FederalHoliday.init (fiscal_year : Int) : Except PyErr FederalHoliday := do
  let s ← date? (fiscal_year - 1) 10 1
  let e ← date? fiscal_year 9 30
  .ok { fiscal_year := fiscal_year, fy_start_date := s, fy_end_date := e }

/-- `FederalHoliday._observed_date(d)`: shift a weekend holiday to the
adjacent weekday — Saturday (5) to the preceding Friday, Sunday (6) to
the following Monday, any other weekday unchanged. -/
def FederalHoliday.observed_date (d : Date) : Date :=
  if d.weekday = 5 then prevDay d
  else if d.weekday = 6 then nextDay d
  else d

/-- The dates of month `m` of year `y` in order.  Models the
`calendar.Calendar().itermonthdates(year, month)` iteration after the
`d.month == month` filter of `_nth_weekday_of_month` (the iterator pads
with days of the adjacent months, all removed by that filter). -/
def monthDates (y m : Int) : List Date :=
  (List.range (monthDays y m).toNat).map (fun (i : Nat) => ⟨y, m, (i : Int) + 1⟩)

/-- The dates of month `m` of year `y` falling on weekday `w`, in order:
the `matches` list of `_nth_weekday_of_month` / `_last_weekday_of_month`. -/
def weekdayMatches (y m w : Int) : List Date :=
  (monthDates y m).filter (fun d => d.weekday == w)

/-- `FederalHoliday._nth_weekday_of_month(year, month, weekday, n)`:
`matches[n - 1]`, with the `IndexError` of an out-of-range index caught
by the method boundary and turned into `None`. -/
def FederalHoliday.nth_weekday_of_month (y m w : Int) (n : Nat) : Option Date :=
  (weekdayMatches y m w)[n - 1]?

/-- `FederalHoliday._last_weekday_of_month(year, month, weekday)`:
`matches[-1]`, `None` when the list is empty. -/
def FederalHoliday.last_weekday_of_month (y m w : Int) : Option Date :=
  (weekdayMatches y m w).getLast?

/-- `FederalHoliday._add_holiday(hols, name, actual)`: computes the
observed date and inserts the entry only when the observed date lies in
the fiscal-year window.  When the `actual` argument is `None` (a failed
`_nth_weekday_of_month`), `None.weekday()` raises inside the method and
its own `try/except` leaves the dictionary unchanged.  Entries are
`(name, actual, observed)`; the holiday names are pairwise distinct, so
the association list faithfully models the Python `dict`. -/
def FederalHoliday.add_holiday (fh : FederalHoliday)
    (hols : List (String × Date × Date)) (name : String) (actual : Option Date) :
    List (String × Date × Date) :=
  match actual with
  | none => hols
  | some a =>
      let obs := FederalHoliday.observed_date a
      if fh.fy_start_date ≤ obs ∧ obs ≤ fh.fy_end_date then
        hols ++ [(name, a, obs)]
      else
        hols

/-- Body of `FederalHoliday.holidays()`: the eleven fixed federal
holidays, added in source order.  `start` is `self.fy_start_date.year`
(= fiscal_year - 1 for a constructor-built instance) and `end` is
`self.fiscal_year`.  The fixed-date constructions `date(start, 11, 11)`
etc. are range-checked; an out-of-range year raises `ValueError` to the
method boundary.  Weekday constants are Python `calendar.MONDAY = 0` and
`calendar.THURSDAY = 3`. -/
def FederalHoliday.holidaysE (fh : FederalHoliday) :
    Except PyErr (List (String × Date × Date)) := do
  let hols : List (String × Date × Date) := []
  let start := fh.fy_start_date.year
  let e := fh.fiscal_year
  let hols := fh.add_holiday hols "Columbus Day"
    (FederalHoliday.nth_weekday_of_month start 10 0 2)
  let vd ← date? start 11 11
  let hols := fh.add_holiday hols "Veterans Day" (some vd)
  let hols := fh.add_holiday hols "Thanksgiving Day"
    (FederalHoliday.nth_weekday_of_month start 11 3 4)
  let cd ← date? start 12 25
  let hols := fh.add_holiday hols "Christmas Day" (some cd)
  let ny ← date? e 1 1
  let hols := fh.add_holiday hols "New Year\x27s Day" (some ny)
  let hols := fh.add_holiday hols "Birthday of Martin Luther King, Jr."
    (FederalHoliday.nth_weekday_of_month e 1 0 3)
  let hols := fh.add_holiday hols "Washington\x27s Birthday"
    (FederalHoliday.nth_weekday_of_month e 2 0 3)
  let hols := fh.add_holiday hols "Memorial Day"
    (FederalHoliday.last_weekday_of_month e 5 0)
  let jt ← date? e 6 19
  let hols := fh.add_holiday hols "Juneteenth National Independence Day" (some jt)
  let id4 ← date? e 7 4
  let hols := fh.add_holiday hols "Independence Day" (some id4)
  let hols := fh.add_holiday hols "Labor Day"
    (FederalHoliday.nth_weekday_of_month e 9 0 1)
  .ok hols

/-- `FederalHoliday.holidays()`: the body under the reporting boundary —
`None` when a construction raised. -/
def FederalHoliday.holidays (fh : FederalHoliday) :
    Option (List (String × Date × Date)) :=
  fh.holidaysE.toOption

/-- `FederalHoliday.is_holiday(when, observed)`: membership of the date
among the observed (or actual) holiday dates.  When `holidays()` failed
and returned `None`, `hols.values()` raises and the boundary returns
`None`. -/
def FederalHoliday.is_holiday (fh : FederalHoliday) (d : Date)
    (observed : Bool := true) : Option Bool :=
  match fh.holidays with
  | none => none
  | some hols =>
      if observed then some (hols.any (fun x => d == x.2.2))
      else some (hols.any (fun x => d == x.2.1))

/-- `FederalHoliday.is_weekend(when)`: weekday is Saturday or Sunday.
The `throw_if` guard never fires for an actual `date` object. -/
def FederalHoliday.is_weekend (d : Date) : Option Bool :=
  some (decide (5 ≤ d.weekday))

/-- Loop of `count_weekends`: walk `cur` from `s` to `e` inclusive by
`cur += timedelta(days=1)`, counting weekend days.  The walk is bounded
by explicit fuel; `count_weekends` passes fuel covering the whole range,
so the recursion mirrors the `while cur <= e` loop. -/
def countWeekendsLoop : Nat → Date → Date → Int
  | 0, _, _ => 0
  | fuel + 1, cur, e =>
      if cur ≤ e then
        (if 5 ≤ cur.weekday then 1 else 0) + countWeekendsLoop fuel (nextDay cur) e
      else 0

/-- `FiscalYear.count_weekends(start, end)`: 0 for an inverted range,
otherwise the weekend count over the inclusive range.  Inputs are already
`date` values (`_to_date` is the identity on them).  The loop body cannot
raise, so the boundary always returns a value. -/
def FiscalYear.count_weekends (_ : FiscalYear) (s e : Date) : Option Int :=
  if e < s then some 0
  else some (countWeekendsLoop ((e.toOrd - s.toOrd).toNat + 1) s e)

/-- Selects the payload compared by the counting operations:
the observed component when `use_observed` else the actual component. -/
def holKey (use_observed : Bool) (x : String × Date × Date) : Date :=
  if use_observed then x.2.2 else x.2.1

/-- `FiscalYear.count_holidays(start, end, use_observed)`: 0 for an
inverted range (before any holiday computation); otherwise builds
`FederalHoliday(self.fiscal_year)` — whose constructor may raise — and
counts the holidays whose selected date lies in the range.  A raised
error is caught at the boundary and yields `None`. -/
def FiscalYear.count_holidays (fy : FiscalYear) (s e : Date)
    (use_observed : Bool := true) : Option Int :=
  (do
    if e < s then (return 0 : Except PyErr Int)
    else
      let fh ← FederalHoliday.init fy.fiscal_year
      match fh.holidays with
      | none => (.error .typeError : Except PyErr Int)
      | some hols =>
          return (hols.filter (fun x =>
            decide (s ≤ holKey use_observed x) && decide (holKey use_observed x ≤ e))).length).toOption

/-- Loop of `count_workdays`: walk the inclusive range counting days that
are Monday–Friday and not in the holiday set. -/
def countWorkdaysLoop (hset : List Date) : Nat → Date → Date → Int
  | 0, _, _ => 0
  | fuel + 1, cur, e =>
      if cur ≤ e then
        (if cur.weekday < 5 ∧ ¬ (cur ∈ hset) then 1 else 0) +
          countWorkdaysLoop hset fuel (nextDay cur) e
      else 0

/-- `FiscalYear.count_workdays(start, end, use_observed)`: 0 for an
inverted range; otherwise counts Monday–Friday days of the range that are
not (observed or actual) holidays of this fiscal year. -/
def FiscalYear.count_workdays (fy : FiscalYear) (s e : Date)
    (use_observed : Bool := true) : Option Int :=
  (do
    if e < s then (return 0 : Except PyErr Int)
    else
      let fh ← FederalHoliday.init fy.fiscal_year
      match fh.holidays with
      | none => (.error .typeError : Except PyErr Int)
      | some hols =>
          return countWorkdaysLoop (hols.map (holKey use_observed))
            ((e.toOrd - s.toOrd).toNat + 1) s e).toOption

@[simp]
theorem exceptBind_ok {α β : Type} (a : α) (f : α → Except PyErr β) :
    (Except.ok a >>= f) = f a := rfl

@[simp]
theorem exceptBind_error {α β : Type} (e : PyErr) (f : α → Except PyErr β) :
    ((Except.error e : Except PyErr α) >>= f) = (Except.error e : Except PyErr β) := rfl

theorem monthDays_ge (y m : Int) : 28 ≤ monthDays y m := by
  unfold monthDays
  split
  · split <;> norm_num
  · split <;> norm_num

theorem monthDays_le (y m : Int) : monthDays y m ≤ 31 := by
  unfold monthDays
  split
  · split <;> norm_num
  · split <;> norm_num

theorem rataDieAux_succ_month (y m : Int) (h1 : 1 ≤ m) (h2 : m ≤ 11) :
    rataDieAux y (m + 1) = rataDieAux y m + monthDays y m := by
  interval_cases m <;>
    simp only [rataDieAux, monthDays, isLeap, Bool.or_eq_true, Bool.and_eq_true, beq_iff_eq,
      bne_iff_ne, decide_eq_true_eq] <;>
    norm_num <;>
    omega

theorem rataDieAux_succ_year (y : Int) :
    rataDieAux (y + 1) 1 = rataDieAux y 12 + 31 := by
  simp only [rataDieAux]
  norm_num
  omega

@[simp]
theorem toOrd_mk (y m d : Int) : (Date.mk y m d).toOrd = rataDieAux y m + d := rfl

@[simp]
theorem year_mk (y m d : Int) : (Date.mk y m d).year = y := rfl

@[simp]
theorem month_mk (y m d : Int) : (Date.mk y m d).month = m := rfl

@[simp]
theorem day_mk (y m d : Int) : (Date.mk y m d).day = d := rfl

/-- Stepping to the next civil day adds one to the day number: the
`nextDay` case split agrees with ordinal arithmetic on valid dates. -/
theorem toOrd_nextDay (d : Date) (hv : d.Valid) : (nextDay d).toOrd = d.toOrd + 1 := by
  obtain ⟨y, m, day⟩ := d
  simp only [Date.Valid] at hv
  obtain ⟨hy1, hy2, hm1, hm2, hd1, hd2⟩ := hv
  simp only [nextDay, year_mk, month_mk, day_mk]
  split
  · simp only [toOrd_mk]
    ring
  · rename_i hlt
    split
    · rename_i hm12
      simp only [toOrd_mk]
      have hday : day = monthDays y m := by omega
      rw [rataDieAux_succ_month y m hm1 (by omega)]
      omega
    · rename_i hm12
      have hm' : m = 12 := by omega
      subst hm'
      have h31 : monthDays y 12 = 31 := by norm_num [monthDays]
      have hday : day = 31 := by omega
      subst hday
      simp only [toOrd_mk]
      rw [rataDieAux_succ_year y]

/-- Stepping to the previous civil day subtracts one from the day
number. -/
theorem toOrd_prevDay (d : Date) (hv : d.Valid) : (prevDay d).toOrd = d.toOrd - 1 := by
  obtain ⟨y, m, day⟩ := d
  simp only [Date.Valid] at hv
  obtain ⟨hy1, hy2, hm1, hm2, hd1, hd2⟩ := hv
  simp only [prevDay, year_mk, month_mk, day_mk]
  split
  · simp only [toOrd_mk]
    ring
  · rename_i hgt
    have hday : day = 1 := by omega
    subst hday
    split
    · rename_i hm2'
      simp only [toOrd_mk]
      have hstep : rataDieAux y (m - 1 + 1) = rataDieAux y (m - 1) + monthDays y (m - 1) :=
        rataDieAux_succ_month y (m - 1) (by omega) (by omega)
      have hmm : m - 1 + 1 = m := by omega
      rw [hmm] at hstep
      omega
    · rename_i hm2'
      have hm' : m = 1 := by omega
      subst hm'
      simp only [toOrd_mk]
      have hstep := rataDieAux_succ_year (y - 1)
      have hyy : y - 1 + 1 = y := by omega
      rw [hyy] at hstep
      omega

theorem date?_eq_ok {y m d : Int} {v : Date} (h : date? y m d = .ok v) :
    v = ⟨y, m, d⟩ ∧ 1 ≤ y ∧ y ≤ 9999 ∧ 1 ≤ m ∧ m ≤ 12 ∧ 1 ≤ d ∧ d ≤ monthDays y m := by
  unfold date? at h
  split at h
  · rename_i hc
    cases h
    exact ⟨rfl, hc⟩
  · cases h

theorem date?_ok {y m d : Int}
    (h : 1 ≤ y ∧ y ≤ 9999 ∧ 1 ≤ m ∧ m ≤ 12 ∧ 1 ≤ d ∧ d ≤ monthDays y m) :
    date? y m d = .ok ⟨y, m, d⟩ := by
  unfold date?
  rw [if_pos h]

theorem datetime?_ok {y m d : Int}
    (h : 1 ≤ y ∧ y ≤ 9999 ∧ 1 ≤ m ∧ m ≤ 12 ∧ 1 ≤ d ∧ d ≤ monthDays y m) :
    datetime? y m d = .ok ⟨y, m, d⟩ := by
  unfold datetime?
  rw [if_pos h]

/-- Every month contains at least four occurrences of any fixed weekday
among its first 28 days; stated for the two weekdays the holiday rules
request (Monday = 0 and Thursday = 3). -/
theorem four_le_weekdayMatches (y m w : Int) (hw : w = 0 ∨ w = 3) :
    4 ≤ (weekdayMatches y m w).length := by
  unfold weekdayMatches monthDates
  rw [List.filter_map, List.length_map]
  have hpred : ∀ i ∈ List.range (monthDays y m).toNat,
      ((fun d => d.weekday == w) ∘ fun i : Nat => (⟨y, m, (i : Int) + 1⟩ : Date)) i =
        ((rataDieAux y m % 7 + (i : Int) + 4) % 7 == w) := by
    intro i _
    show (Date.weekday ⟨y, m, (i : Int) + 1⟩ == w) = _
    have harith : Date.weekday ⟨y, m, (i : Int) + 1⟩ =
        (rataDieAux y m % 7 + (i : Int) + 4) % 7 := by
      simp only [Date.weekday, toOrd_mk]
      omega
    rw [harith]
  rw [List.filter_congr hpred]
  have h0 : 0 ≤ rataDieAux y m % 7 := Int.emod_nonneg _ (by norm_num)
  have h7 : rataDieAux y m % 7 < 7 := Int.emod_lt_of_pos _ (by norm_num)
  have h28 : 28 ≤ (monthDays y m).toNat := by
    have := monthDays_ge y m
    omega
  have hsub : (List.filter (fun i : Nat => ((rataDieAux y m % 7 + (i : Int) + 4) % 7 == w))
        (List.range 28)).Sublist
      (List.filter (fun i : Nat => ((rataDieAux y m % 7 + (i : Int) + 4) % 7 == w))
        (List.range (monthDays y m).toNat)) :=
    (List.range_sublist.mpr h28).filter _
  have hlen := hsub.length_le
  have h4 : 4 ≤ (List.filter (fun i : Nat => ((rataDieAux y m % 7 + (i : Int) + 4) % 7 == w))
      (List.range 28)).length := by
    set r := rataDieAux y m % 7 with hr
    interval_cases r <;> rcases hw with rfl | rfl <;> decide
  omega

/-- Membership in the filtered month list pins down all components. -/
theorem mem_weekdayMatches {y m w : Int} {d : Date} (h : d ∈ weekdayMatches y m w) :
    d.year = y ∧ d.month = m ∧ 1 ≤ d.day ∧ d.day ≤ monthDays y m ∧ d.weekday = w := by
  unfold weekdayMatches monthDates at h
  rw [List.mem_filter] at h
  obtain ⟨hmem, hwd⟩ := h
  rw [List.mem_map] at hmem
  obtain ⟨i, hi, rfl⟩ := hmem
  rw [List.mem_range] at hi
  refine ⟨rfl, rfl, by simp only [day_mk]; omega, by simp only [day_mk]; omega, beq_iff_eq.mp hwd⟩

/-- The n-th weekday-of-month lookup succeeds for `n ≤ 4`, and the result
is a day of the requested month with the requested weekday. -/
theorem nth_weekday_spec (y m w : Int) (n : Nat) (hw : w = 0 ∨ w = 3)
    (hn1 : 1 ≤ n) (hn4 : n ≤ 4) :
    ∃ d, FederalHoliday.nth_weekday_of_month y m w n = some d ∧ d.year = y ∧ d.month = m ∧
      1 ≤ d.day ∧ d.day ≤ monthDays y m ∧ d.weekday = w := by
  have hlen := four_le_weekdayMatches y m w hw
  have hidx : n - 1 < (weekdayMatches y m w).length := by omega
  refine ⟨(weekdayMatches y m w)[n - 1], ?_, ?_⟩
  · unfold FederalHoliday.nth_weekday_of_month
    exact List.getElem?_eq_getElem hidx
  · exact mem_weekdayMatches (List.getElem_mem hidx)

/-- The last weekday-of-month lookup always succeeds, with the same
component characterization. -/
theorem last_weekday_spec (y m w : Int) (hw : w = 0 ∨ w = 3) :
    ∃ d, FederalHoliday.last_weekday_of_month y m w = some d ∧ d.year = y ∧ d.month = m ∧
      1 ≤ d.day ∧ d.day ≤ monthDays y m ∧ d.weekday = w := by
  have hlen := four_le_weekdayMatches y m w hw
  have hne : weekdayMatches y m w ≠ [] := by
    intro hnil
    rw [hnil] at hlen
    simp at hlen
  refine ⟨(weekdayMatches y m w).getLast hne, ?_, ?_⟩
  · unfold FederalHoliday.last_weekday_of_month
    exact List.getLast?_eq_getLast _ hne
  · exact mem_weekdayMatches (List.getLast_mem hne)

/-- A Monday or Thursday holiday needs no observance shift. -/
theorem observed_of_weekday_03 (d : Date) (hw : d.weekday = 0 ∨ d.weekday = 3) :
    FederalHoliday.observed_date d = d := by
  unfold FederalHoliday.observed_date
  rcases hw with h | h <;> rw [h] <;> norm_num

/-- The observed date is the actual date or one civil day away. -/
theorem observed_cases (d : Date) :
    FederalHoliday.observed_date d = prevDay d ∨ FederalHoliday.observed_date d = d ∨
      FederalHoliday.observed_date d = nextDay d := by
  unfold FederalHoliday.observed_date
  split
  · exact Or.inl rfl
  · split
    · exact Or.inr (Or.inr rfl)
    · exact Or.inr (Or.inl rfl)

/-- An entry of `add_holiday` either was already present or satisfies the
fiscal-window invariant. -/
theorem mem_add_holiday {fh : FederalHoliday} {hols : List (String × Date × Date)}
    {name : String} {a : Option Date} {x : String × Date × Date}
    (hx : x ∈ fh.add_holiday hols name a) :
    x ∈ hols ∨ (fh.fy_start_date ≤ x.2.2 ∧ x.2.2 ≤ fh.fy_end_date) := by
  cases a with
  | none =>
      simp only [FederalHoliday.add_holiday] at hx
      exact Or.inl hx
  | some b =>
      simp only [FederalHoliday.add_holiday] at hx
      split at hx
      · rename_i hwin
        rw [List.mem_append] at hx
        rcases hx with hx | hx
        · exact Or.inl hx
        · rw [List.mem_singleton] at hx
          subst hx
          exact Or.inr hwin
      · exact Or.inl hx

/-- When the observed date passes the window check, `add_holiday`
appends exactly one entry. -/
theorem add_holiday_append {fh : FederalHoliday} {hols : List (String × Date × Date)}
    {name : String} (a : Date)
    (hwin : fh.fy_start_date ≤ FederalHoliday.observed_date a ∧
      FederalHoliday.observed_date a ≤ fh.fy_end_date) :
    fh.add_holiday hols name (some a) =
      hols ++ [(name, a, FederalHoliday.observed_date a)] := by
  simp only [FederalHoliday.add_holiday]
  rw [if_pos hwin]

/-- When the observed date fails the window check, `add_holiday` leaves
the dictionary unchanged (and reports nothing). -/
theorem add_holiday_skip {fh : FederalHoliday} {hols : List (String × Date × Date)}
    {name : String} (a : Date)
    (hwin : ¬ (fh.fy_start_date ≤ FederalHoliday.observed_date a ∧
      FederalHoliday.observed_date a ≤ fh.fy_end_date)) :
    fh.add_holiday hols name (some a) = hols := by
  simp only [FederalHoliday.add_holiday]
  rw [if_neg hwin]

@[simp]
theorem fiscalYear_mk (a : Int) (b c : Date) :
    (FederalHoliday.mk a b c).fiscal_year = a := rfl

@[simp]
theorem fyStart_mk (a : Int) (b c : Date) :
    (FederalHoliday.mk a b c).fy_start_date = b := rfl

@[simp]
theorem fyEnd_mk (a : Int) (b c : Date) :
    (FederalHoliday.mk a b c).fy_end_date = c := rfl

theorem prevDay_mk_mid (y m d : Int) (h : 1 < d) :
    prevDay ⟨y, m, d⟩ = ⟨y, m, d - 1⟩ := by
  unfold prevDay
  simp only [year_mk, month_mk, day_mk]
  rw [if_pos h]

theorem nextDay_mk_mid (y m d : Int) (h : d < monthDays y m) :
    nextDay ⟨y, m, d⟩ = ⟨y, m, d + 1⟩ := by
  unfold nextDay
  simp only [year_mk, month_mk, day_mk]
  rw [if_pos h]

theorem prevDay_jan1 (y : Int) : prevDay ⟨y, 1, 1⟩ = ⟨y - 1, 12, 31⟩ := by
  unfold prevDay
  simp only [year_mk, month_mk, day_mk]
  norm_num

/-- A date of October–December of the starting calendar year lies in the
fiscal window of `fy`. -/
theorem window_startmonths (fy : Int) (d : Date) (hy : d.year = fy - 1)
    (hm1 : 10 ≤ d.month) (hm2 : d.month ≤ 12) (hd : 1 ≤ d.day) :
    (⟨fy - 1, 10, 1⟩ : Date) ≤ d ∧ d ≤ (⟨fy, 9, 30⟩ : Date) := by
  constructor <;>
    (show Date.le _ _
     simp only [Date.le, year_mk, month_mk, day_mk]
     omega)

/-- A date of January–September of the ending calendar year lies in the
fiscal window of `fy` (for September, up to the 30th). -/
theorem window_endmonths (fy : Int) (d : Date) (hy : d.year = fy)
    (_hm1 : 1 ≤ d.month) (hm : d.month < 9 ∨ (d.month = 9 ∧ d.day ≤ 30)) :
    (⟨fy - 1, 10, 1⟩ : Date) ≤ d ∧ d ≤ (⟨fy, 9, 30⟩ : Date) := by
  constructor <;>
    (show Date.le _ _
     simp only [Date.le, year_mk, month_mk, day_mk]
     omega)

/-- A successful `FederalHoliday.__init__` pins down the fields and the
representable-year bounds. -/
theorem init_eq_ok {fy : Int} {fh : FederalHoliday}
    (h : FederalHoliday.init fy = .ok fh) :
    fh = ⟨fy, ⟨fy - 1, 10, 1⟩, ⟨fy, 9, 30⟩⟩ ∧ 2 ≤ fy ∧ fy ≤ 9999 := by
  unfold FederalHoliday.init at h
  cases h1 : date? (fy - 1) 10 1 with
  | error e => rw [h1] at h; simp at h
  | ok s =>
      obtain ⟨hs, hb⟩ := date?_eq_ok h1
      subst hs
      rw [h1] at h
      simp only [exceptBind_ok] at h
      cases h2 : date? fy 9 30 with
      | error e => rw [h2] at h; simp at h
      | ok e2 =>
          obtain ⟨he2, hbe⟩ := date?_eq_ok h2
          subst he2
          rw [h2] at h
          simp only [exceptBind_ok] at h
          cases h
          exact ⟨rfl, by omega, by omega⟩

/-- The eleven holiday names in insertion order. -/
def holidayNames : List String :=
  ["Columbus Day", "Veterans Day", "Thanksgiving Day", "Christmas Day",
    "New Year\x27s Day", "Birthday of Martin Luther King, Jr.",
    "Washington\x27s Birthday", "Memorial Day",
    "Juneteenth National Independence Day", "Independence Day", "Labor Day"]

/-- For every constructible fiscal year, `holidays()` succeeds and
returns exactly the eleven entries, in insertion order: every window
check of `_add_holiday` passes. -/
theorem holidays_eq_of_init {fy : Int} {fh : FederalHoliday}
    (h : FederalHoliday.init fy = .ok fh) :
    ∃ l, fh.holidays = some l ∧ l.length = 11 ∧ l.map Prod.fst = holidayNames := by
  obtain ⟨hfh, hfy2, hfy9⟩ := init_eq_ok h
  subst hfh
  -- the six weekday-rule holidays
  obtain ⟨d1, hd1, hy1, hm1, hlo1, hhi1, hw1⟩ :=
    nth_weekday_spec (fy - 1) 10 0 2 (Or.inl rfl) (by norm_num) (by norm_num)
  obtain ⟨d3, hd3, hy3, hm3, hlo3, hhi3, hw3⟩ :=
    nth_weekday_spec (fy - 1) 11 3 4 (Or.inr rfl) (by norm_num) (by norm_num)
  obtain ⟨d6, hd6, hy6, hm6, hlo6, hhi6, hw6⟩ :=
    nth_weekday_spec fy 1 0 3 (Or.inl rfl) (by norm_num) (by norm_num)
  obtain ⟨d7, hd7, hy7, hm7, hlo7, hhi7, hw7⟩ :=
    nth_weekday_spec fy 2 0 3 (Or.inl rfl) (by norm_num) (by norm_num)
  obtain ⟨d8, hd8, hy8, hm8, hlo8, hhi8, hw8⟩ :=
    last_weekday_spec fy 5 0 (Or.inl rfl)
  obtain ⟨d11, hd11, hy11, hm11, hlo11, hhi11, hw11⟩ :=
    nth_weekday_spec fy 9 0 1 (Or.inl rfl) (by norm_num) (by norm_num)
  -- window facts for the weekday-rule holidays (no observance shift)
  have hobs1 := observed_of_weekday_03 d1 (Or.inl hw1)
  have hobs3 := observed_of_weekday_03 d3 (Or.inr hw3)
  have hobs6 := observed_of_weekday_03 d6 (Or.inl hw6)
  have hobs7 := observed_of_weekday_03 d7 (Or.inl hw7)
  have hobs8 := observed_of_weekday_03 d8 (Or.inl hw8)
  have hobs11 := observed_of_weekday_03 d11 (Or.inl hw11)
  have hwin1 : (⟨fy - 1, 10, 1⟩ : Date) ≤ FederalHoliday.observed_date d1 ∧
      FederalHoliday.observed_date d1 ≤ (⟨fy, 9, 30⟩ : Date) := by
    rw [hobs1]
    exact window_startmonths fy d1 hy1 (by omega) (by omega) hlo1
  have hwin3 : (⟨fy - 1, 10, 1⟩ : Date) ≤ FederalHoliday.observed_date d3 ∧
      FederalHoliday.observed_date d3 ≤ (⟨fy, 9, 30⟩ : Date) := by
    rw [hobs3]
    exact window_startmonths fy d3 hy3 (by omega) (by omega) hlo3
  have hwin6 : (⟨fy - 1, 10, 1⟩ : Date) ≤ FederalHoliday.observed_date d6 ∧
      FederalHoliday.observed_date d6 ≤ (⟨fy, 9, 30⟩ : Date) := by
    rw [hobs6]
    exact window_endmonths fy d6 hy6 (by omega) (by omega)
  have hwin7 : (⟨fy - 1, 10, 1⟩ : Date) ≤ FederalHoliday.observed_date d7 ∧
      FederalHoliday.observed_date d7 ≤ (⟨fy, 9, 30⟩ : Date) := by
    rw [hobs7]
    exact window_endmonths fy d7 hy7 (by omega) (by omega)
  have hwin8 : (⟨fy - 1, 10, 1⟩ : Date) ≤ FederalHoliday.observed_date d8 ∧
      FederalHoliday.observed_date d8 ≤ (⟨fy, 9, 30⟩ : Date) := by
    rw [hobs8]
    exact window_endmonths fy d8 hy8 (by omega) (by omega)
  have hwin11 : (⟨fy - 1, 10, 1⟩ : Date) ≤ FederalHoliday.observed_date d11 ∧
      FederalHoliday.observed_date d11 ≤ (⟨fy, 9, 30⟩ : Date) := by
    rw [hobs11]
    have h30 : monthDays fy 9 = 30 := by norm_num [monthDays]
    exact window_endmonths fy d11 hy11 (by omega) (Or.inr ⟨hm11, by omega⟩)
  -- window facts for the five fixed-date holidays
  have hwinV : (⟨fy - 1, 10, 1⟩ : Date) ≤ FederalHoliday.observed_date ⟨fy - 1, 11, 11⟩ ∧
      FederalHoliday.observed_date ⟨fy - 1, 11, 11⟩ ≤ (⟨fy, 9, 30⟩ : Date) := by
    have h30 : monthDays (fy - 1) 11 = 30 := by norm_num [monthDays]
    rcases observed_cases ⟨fy - 1, 11, 11⟩ with ho | ho | ho <;> rw [ho]
    · rw [prevDay_mk_mid _ _ _ (by norm_num)]
      exact window_startmonths fy _ rfl (by norm_num) (by norm_num) (by norm_num)
    · exact window_startmonths fy _ rfl (by norm_num) (by norm_num) (by norm_num)
    · rw [nextDay_mk_mid _ _ _ (by omega)]
      exact window_startmonths fy _ rfl (by norm_num) (by norm_num) (by norm_num)
  have hwinC : (⟨fy - 1, 10, 1⟩ : Date) ≤ FederalHoliday.observed_date ⟨fy - 1, 12, 25⟩ ∧
      FederalHoliday.observed_date ⟨fy - 1, 12, 25⟩ ≤ (⟨fy, 9, 30⟩ : Date) := by
    have h31 : monthDays (fy - 1) 12 = 31 := by norm_num [monthDays]
    rcases observed_cases ⟨fy - 1, 12, 25⟩ with ho | ho | ho <;> rw [ho]
    · rw [prevDay_mk_mid _ _ _ (by norm_num)]
      exact window_startmonths fy _ rfl (by norm_num) (by norm_num) (by norm_num)
    · exact window_startmonths fy _ rfl (by norm_num) (by norm_num) (by norm_num)
    · rw [nextDay_mk_mid _ _ _ (by omega)]
      exact window_startmonths fy _ rfl (by norm_num) (by norm_num) (by norm_num)
  have hwinN : (⟨fy - 1, 10, 1⟩ : Date) ≤ FederalHoliday.observed_date ⟨fy, 1, 1⟩ ∧
      FederalHoliday.observed_date ⟨fy, 1, 1⟩ ≤ (⟨fy, 9, 30⟩ : Date) := by
    have h31 : monthDays fy 1 = 31 := by norm_num [monthDays]
    rcases observed_cases ⟨fy, 1, 1⟩ with ho | ho | ho <;> rw [ho]
    · rw [prevDay_jan1]
      exact window_startmonths fy _ rfl (by norm_num) (by norm_num) (by norm_num)
    · exact window_endmonths fy _ rfl (by norm_num) (by norm_num)
    · rw [nextDay_mk_mid _ _ _ (by omega)]
      exact window_endmonths fy _ rfl (by norm_num) (by norm_num)
  have hwinJ : (⟨fy - 1, 10, 1⟩ : Date) ≤ FederalHoliday.observed_date ⟨fy, 6, 19⟩ ∧
      FederalHoliday.observed_date ⟨fy, 6, 19⟩ ≤ (⟨fy, 9, 30⟩ : Date) := by
    have h30 : monthDays fy 6 = 30 := by norm_num [monthDays]
    rcases observed_cases ⟨fy, 6, 19⟩ with ho | ho | ho <;> rw [ho]
    · rw [prevDay_mk_mid _ _ _ (by norm_num)]
      exact window_endmonths fy _ rfl (by norm_num) (by norm_num)
    · exact window_endmonths fy _ rfl (by norm_num) (by norm_num)
    · rw [nextDay_mk_mid _ _ _ (by omega)]
      exact window_endmonths fy _ rfl (by norm_num) (by norm_num)
  have hwinI : (⟨fy - 1, 10, 1⟩ : Date) ≤ FederalHoliday.observed_date ⟨fy, 7, 4⟩ ∧
      FederalHoliday.observed_date ⟨fy, 7, 4⟩ ≤ (⟨fy, 9, 30⟩ : Date) := by
    have h31 : monthDays fy 7 = 31 := by norm_num [monthDays]
    rcases observed_cases ⟨fy, 7, 4⟩ with ho | ho | ho <;> rw [ho]
    · rw [prevDay_mk_mid _ _ _ (by norm_num)]
      exact window_endmonths fy _ rfl (by norm_num) (by norm_num)
    · exact window_endmonths fy _ rfl (by norm_num) (by norm_num)
    · rw [nextDay_mk_mid _ _ _ (by omega)]
      exact window_endmonths fy _ rfl (by norm_num) (by norm_num)
  -- the five fixed-date constructions succeed
  have hdV : date? (fy - 1) 11 11 = .ok ⟨fy - 1, 11, 11⟩ := by
    refine date?_ok ⟨by omega, by omega, by norm_num, by norm_num, by norm_num, ?_⟩
    norm_num [monthDays]
  have hdC : date? (fy - 1) 12 25 = .ok ⟨fy - 1, 12, 25⟩ := by
    refine date?_ok ⟨by omega, by omega, by norm_num, by norm_num, by norm_num, ?_⟩
    norm_num [monthDays]
  have hdN : date? fy 1 1 = .ok ⟨fy, 1, 1⟩ := by
    refine date?_ok ⟨by omega, by omega, by norm_num, by norm_num, by norm_num, ?_⟩
    norm_num [monthDays]
  have hdJ : date? fy 6 19 = .ok ⟨fy, 6, 19⟩ := by
    refine date?_ok ⟨by omega, by omega, by norm_num, by norm_num, by norm_num, ?_⟩
    norm_num [monthDays]
  have hdI : date? fy 7 4 = .ok ⟨fy, 7, 4⟩ := by
    refine date?_ok ⟨by omega, by omega, by norm_num, by norm_num, by norm_num, ?_⟩
    norm_num [monthDays]
  -- assemble the full list
  have hE : (FederalHoliday.mk fy ⟨fy - 1, 10, 1⟩ ⟨fy, 9, 30⟩).holidaysE =
      .ok [("Columbus Day", d1, FederalHoliday.observed_date d1),
        ("Veterans Day", ⟨fy - 1, 11, 11⟩, FederalHoliday.observed_date ⟨fy - 1, 11, 11⟩),
        ("Thanksgiving Day", d3, FederalHoliday.observed_date d3),
        ("Christmas Day", ⟨fy - 1, 12, 25⟩, FederalHoliday.observed_date ⟨fy - 1, 12, 25⟩),
        ("New Year\x27s Day", ⟨fy, 1, 1⟩, FederalHoliday.observed_date ⟨fy, 1, 1⟩),
        ("Birthday of Martin Luther King, Jr.", d6, FederalHoliday.observed_date d6),
        ("Washington\x27s Birthday", d7, FederalHoliday.observed_date d7),
        ("Memorial Day", d8, FederalHoliday.observed_date d8),
        ("Juneteenth National Independence Day", ⟨fy, 6, 19⟩,
          FederalHoliday.observed_date ⟨fy, 6, 19⟩),
        ("Independence Day", ⟨fy, 7, 4⟩, FederalHoliday.observed_date ⟨fy, 7, 4⟩),
        ("Labor Day", d11, FederalHoliday.observed_date d11)] := by
    simp only [FederalHoliday.holidaysE, fiscalYear_mk, fyStart_mk, fyEnd_mk, year_mk,
      hd1, hd3, hd6, hd7, hd8, hd11, hdV, hdC, hdN, hdJ, hdI, exceptBind_ok]
    rw [add_holiday_append d1 hwin1]
    rw [add_holiday_append (⟨fy - 1, 11, 11⟩ : Date) hwinV]
    rw [add_holiday_append d3 hwin3]
    rw [add_holiday_append (⟨fy - 1, 12, 25⟩ : Date) hwinC]
    rw [add_holiday_append (⟨fy, 1, 1⟩ : Date) hwinN]
    rw [add_holiday_append d6 hwin6]
    rw [add_holiday_append d7 hwin7]
    rw [add_holiday_append d8 hwin8]
    rw [add_holiday_append (⟨fy, 6, 19⟩ : Date) hwinJ]
    rw [add_holiday_append (⟨fy, 7, 4⟩ : Date) hwinI]
    rw [add_holiday_append d11 hwin11]
    simp only [List.nil_append, List.cons_append]
  exact ⟨_, congrArg Except.toOption hE, rfl, rfl⟩

theorem datetime?_eq_ok {y m d : Int} {v : PyDateTime} (h : datetime? y m d = .ok v) :
    v = ⟨y, m, d⟩ ∧ 1 ≤ y ∧ y ≤ 9999 ∧ 1 ≤ m ∧ m ≤ 12 ∧ 1 ≤ d ∧ d ≤ monthDays y m := by
  unfold datetime? at h
  split at h
  · rename_i hc
    cases h
    exact ⟨rfl, hc⟩
  · cases h

/-- A successful `_bind` produces exactly the source assignments of the
taken branch. -/
theorem bind_eq_ok {d : Date} {fy : FiscalYear} (h : FiscalYear.bind d = .ok fy) :
    (10 ≤ d.month ∧
      fy = ⟨d, d.year, d.year + 1, d.year, d.year + 1, ⟨d.year, 1, 1⟩, ⟨d.year, 12, 31⟩,
        ⟨d.year, 10, 1⟩, ⟨d.year + 1, 9, 30⟩⟩) ∨
    (¬ 10 ≤ d.month ∧
      fy = ⟨d, d.year, d.year, d.year - 1, d.year, ⟨d.year, 1, 1⟩, ⟨d.year, 12, 31⟩,
        ⟨d.year - 1, 10, 1⟩, ⟨d.year, 9, 30⟩⟩) := by
  unfold FiscalYear.bind at h
  split at h
  · rename_i hm
    left
    refine ⟨hm, ?_⟩
    cases h1 : datetime? d.year 10 1 with
    | error e => rw [h1] at h; simp at h
    | ok fys =>
        obtain ⟨rfl, -⟩ := datetime?_eq_ok h1
        rw [h1] at h
        simp only [exceptBind_ok] at h
        cases h2 : datetime? (d.year + 1) 9 30 with
        | error e => rw [h2] at h; simp at h
        | ok fye =>
            obtain ⟨rfl, -⟩ := datetime?_eq_ok h2
            rw [h2] at h
            simp only [exceptBind_ok] at h
            cases h3 : datetime? d.year 1 1 with
            | error e => rw [h3] at h; simp at h
            | ok cys =>
                obtain ⟨rfl, -⟩ := datetime?_eq_ok h3
                rw [h3] at h
                simp only [exceptBind_ok] at h
                cases h4 : datetime? d.year 12 31 with
                | error e => rw [h4] at h; simp at h
                | ok cye =>
                    obtain ⟨rfl, -⟩ := datetime?_eq_ok h4
                    rw [h4] at h
                    simp only [exceptBind_ok] at h
                    cases h
                    rfl
  · rename_i hm
    right
    refine ⟨hm, ?_⟩
    cases h1 : datetime? (d.year - 1) 10 1 with
    | error e => rw [h1] at h; simp at h
    | ok fys =>
        obtain ⟨rfl, -⟩ := datetime?_eq_ok h1
        rw [h1] at h
        simp only [exceptBind_ok] at h
        cases h2 : datetime? d.year 9 30 with
        | error e => rw [h2] at h; simp at h
        | ok fye =>
            obtain ⟨rfl, -⟩ := datetime?_eq_ok h2
            rw [h2] at h
            simp only [exceptBind_ok] at h
            cases h3 : datetime? d.year 1 1 with
            | error e => rw [h3] at h; simp at h
            | ok cys =>
                obtain ⟨rfl, -⟩ := datetime?_eq_ok h3
                rw [h3] at h
                simp only [exceptBind_ok] at h
                cases h4 : datetime? d.year 12 31 with
                | error e => rw [h4] at h; simp at h
                | ok cye =>
                    obtain ⟨rfl, -⟩ := datetime?_eq_ok h4
                    rw [h4] at h
                    simp only [exceptBind_ok] at h
                    cases h
                    rfl

/-- Every entry produced by a successful `holidays()` satisfies the
window invariant, whatever the `FederalHoliday` state. -/
theorem holidays_window_inv (fh : FederalHoliday) (l : List (String × Date × Date))
    (hl : fh.holidays = some l) :
    ∀ x ∈ l, fh.fy_start_date ≤ x.2.2 ∧ x.2.2 ≤ fh.fy_end_date := by
  have step : ∀ (hols : List (String × Date × Date)) (name : String) (a : Option Date),
      (∀ z ∈ hols, fh.fy_start_date ≤ z.2.2 ∧ z.2.2 ≤ fh.fy_end_date) →
      ∀ x ∈ fh.add_holiday hols name a, fh.fy_start_date ≤ x.2.2 ∧ x.2.2 ≤ fh.fy_end_date :=
    fun hols name a hInv x hx => (mem_add_holiday hx).elim (hInv x) id
  have hE : fh.holidaysE = .ok l := by
    unfold FederalHoliday.holidays at hl
    cases hE : fh.holidaysE with
    | error e => rw [hE] at hl; cases hl
    | ok L =>
        rw [hE] at hl
        cases hl
        rfl
  simp only [FederalHoliday.holidaysE] at hE
  cases h1 : date? fh.fy_start_date.year 11 11 with
  | error e => rw [h1] at hE; simp at hE
  | ok vd =>
      rw [h1] at hE
      simp only [exceptBind_ok] at hE
      cases h2 : date? fh.fy_start_date.year 12 25 with
      | error e => rw [h2] at hE; simp at hE
      | ok cd =>
          rw [h2] at hE
          simp only [exceptBind_ok] at hE
          cases h3 : date? fh.fiscal_year 1 1 with
          | error e => rw [h3] at hE; simp at hE
          | ok ny =>
              rw [h3] at hE
              simp only [exceptBind_ok] at hE
              cases h4 : date? fh.fiscal_year 6 19 with
              | error e => rw [h4] at hE; simp at hE
              | ok jt =>
                  rw [h4] at hE
                  simp only [exceptBind_ok] at hE
                  cases h5 : date? fh.fiscal_year 7 4 with
                  | error e => rw [h5] at hE; simp at hE
                  | ok id4 =>
                      rw [h5] at hE
                      simp only [exceptBind_ok] at hE
                      cases hE
                      exact step _ _ _ (step _ _ _ (step _ _ _ (step _ _ _ (step _ _ _
                        (step _ _ _ (step _ _ _ (step _ _ _ (step _ _ _ (step _ _ _
                          (step _ _ _ (fun z hz => absurd hz (List.not_mem_nil z))))))))))))

/-- The bound state produced by binding the reference date 2025-10-01. -/
def fyOct2025 : FiscalYear :=
  ⟨⟨2025, 10, 1⟩, 2025, 2026, 2025, 2026, ⟨2025, 1, 1⟩, ⟨2025, 12, 31⟩,
    ⟨2025, 10, 1⟩, ⟨2026, 9, 30⟩⟩

/-- The bound state produced by binding the reference date 2025-01-01. -/
def fyJan2025 : FiscalYear :=
  ⟨⟨2025, 1, 1⟩, 2025, 2025, 2024, 2025, ⟨2025, 1, 1⟩, ⟨2025, 12, 31⟩,
    ⟨2024, 10, 1⟩, ⟨2025, 9, 30⟩⟩

/-- The bound state produced by binding the reference date 2026-09-30
(the final day of fiscal year 2026). -/
def fySep2026 : FiscalYear :=
  ⟨⟨2026, 9, 30⟩, 2026, 2026, 2025, 2026, ⟨2026, 1, 1⟩, ⟨2026, 12, 31⟩,
    ⟨2025, 10, 1⟩, ⟨2026, 9, 30⟩⟩

/-- The holiday calendar state for fiscal year 2026. -/
def fh2026 : FederalHoliday := ⟨2026, ⟨2025, 10, 1⟩, ⟨2026, 9, 30⟩⟩

/-- C1: for every reference date bound by FiscalYear, the fiscal year is
named for its end year — month >= 10 gives year + 1, otherwise year —
with beginning_fiscal_year = fiscal_year - 1,
ending_fiscal_year = fiscal_year, fy_start_date = October 1 of
fiscal_year - 1 and fy_end_date = September 30 of fiscal_year. -/
theorem C1_fiscal_year_binding (d : Date) (fy : FiscalYear)
    (h : FiscalYear.bind d = .ok fy) :
    fy.fiscal_year = (if 10 ≤ d.month then d.year + 1 else d.year) ∧
    fy.beginning_fiscal_year = fy.fiscal_year - 1 ∧
    fy.ending_fiscal_year = fy.fiscal_year ∧
    fy.fy_start_date = ⟨fy.fiscal_year - 1, 10, 1⟩ ∧
    fy.fy_end_date = ⟨fy.fiscal_year, 9, 30⟩ := by
  rcases bind_eq_ok h with ⟨hm, rfl⟩ | ⟨hm, rfl⟩ <;>
    refine ⟨?_, ?_, ?_, ?_, ?_⟩ <;>
    simp [hm, PyDateTime.mk.injEq]

/-- Witness for C1 at the reference date 2025-10-01. -/
theorem C1_fiscal_year_binding_witness :
    FiscalYear.bind ⟨2025, 10, 1⟩ = .ok fyOct2025 ∧
    fyOct2025.fiscal_year = 2026 ∧ fyOct2025.beginning_fiscal_year = 2025 ∧
    fyOct2025.ending_fiscal_year = 2026 := by
  have h : FiscalYear.bind ⟨2025, 10, 1⟩ = .ok fyOct2025 := by decide
  obtain ⟨h1, h2, h3, h4, h5⟩ := C1_fiscal_year_binding ⟨2025, 10, 1⟩ fyOct2025 h
  exact ⟨h, h1.trans (by decide), h2.trans (by decide), h3.trans (by decide)⟩

/-- C2: the claim says fiscal_day_of_year returns the 1-based day index
(date - fy_start_date).days + 1 in 1..366.  The code instead subtracts a
datetime from a date, which raises TypeError (and even with plain dates
the missing .days would make timedelta + 1 raise); the boundary reports
the error and every call returns None, shown here both universally and
at the bound date 2025-10-01 where the claim expects the value 1. -/
theorem C2_fiscal_day_of_year_returns_none :
    (∀ fy : FiscalYear, fy.fiscal_day_of_year = none) ∧
    FiscalYear.bind ⟨2025, 10, 1⟩ = .ok fyOct2025 ∧
    fyOct2025.fiscal_day_of_year = none :=
  ⟨fun _ => rfl, by decide, rfl⟩

/-- C3: the claim says is_fiscal_start_year is true exactly on the FY
start date, in particular at 2025-10-01.  The bound fields are as the
claim states and the bound date is October 1 component by component, yet
the method compares a date with a datetime, which CPython evaluates to
False, so the call returns False on every state. -/
theorem C3_is_fiscal_start_year_always_false :
    (∀ fy : FiscalYear, fy.is_fiscal_start_year = some false) ∧
    FiscalYear.bind ⟨2025, 10, 1⟩ = .ok fyOct2025 ∧
    fyOct2025.fiscal_year = 2026 ∧ fyOct2025.beginning_fiscal_year = 2025 ∧
    fyOct2025.ending_fiscal_year = 2026 ∧
    fyOct2025.date.year = fyOct2025.fy_start_date.year ∧
    fyOct2025.date.month = fyOct2025.fy_start_date.month ∧
    fyOct2025.date.day = fyOct2025.fy_start_date.day ∧
    fyOct2025.is_fiscal_start_year = some false :=
  ⟨fun _ => rfl, by decide, rfl, rfl, rfl, rfl, rfl, rfl, rfl⟩

/-- C4: the claim says calendar_day_of_year returns
(date - cy_start_date).days + 1, equal to 1 on January 1.  The code
subtracts a datetime from a date, which raises TypeError; the boundary
reports and every call returns None, shown universally and at the bound
date 2025-01-01 where the claim expects 1. -/
theorem C4_calendar_day_of_year_returns_none :
    (∀ fy : FiscalYear, fy.calendar_day_of_year = none) ∧
    FiscalYear.bind ⟨2025, 1, 1⟩ = .ok fyJan2025 ∧
    fyJan2025.calendar_day_of_year = none :=
  ⟨fun _ => rfl, by decide, rfl⟩

/-- C5: the observed date of a holiday is one day earlier when the
actual date is a Saturday, one day later when it is a Sunday, and the
actual date otherwise; July 4 of 2026 (a Saturday) is observed on
July 3, and July 4 of 2027 (a Sunday) on July 5. -/
theorem C5_observed_weekend_shift :
    (∀ d : Date, d.Valid →
      (d.weekday = 5 → (FederalHoliday.observed_date d).toOrd = d.toOrd - 1) ∧
      (d.weekday = 6 → (FederalHoliday.observed_date d).toOrd = d.toOrd + 1) ∧
      (d.weekday ≠ 5 → d.weekday ≠ 6 → FederalHoliday.observed_date d = d)) ∧
    Date.weekday ⟨2026, 7, 4⟩ = 5 ∧
    FederalHoliday.observed_date ⟨2026, 7, 4⟩ = ⟨2026, 7, 3⟩ ∧
    Date.weekday ⟨2027, 7, 4⟩ = 6 ∧
    FederalHoliday.observed_date ⟨2027, 7, 4⟩ = ⟨2027, 7, 5⟩ := by
  refine ⟨?_, by decide, by decide, by decide, by decide⟩
  intro d hv
  refine ⟨?_, ?_, ?_⟩
  · intro h5
    unfold FederalHoliday.observed_date
    rw [if_pos h5]
    exact toOrd_prevDay d hv
  · intro h6
    unfold FederalHoliday.observed_date
    rw [if_neg (by omega : ¬ d.weekday = 5), if_pos h6]
    exact toOrd_nextDay d hv
  · intro h5 h6
    unfold FederalHoliday.observed_date
    rw [if_neg h5, if_neg h6]

/-- Witness for C5 at 2026-07-04, a Saturday. -/
theorem C5_observed_weekend_shift_witness :
    Date.Valid ⟨2026, 7, 4⟩ ∧ Date.weekday ⟨2026, 7, 4⟩ = 5 ∧
    (FederalHoliday.observed_date ⟨2026, 7, 4⟩).toOrd = (Date.mk 2026 7 4).toOrd - 1 :=
  ⟨by decide, by decide,
    (C5_observed_weekend_shift.1 ⟨2026, 7, 4⟩ (by decide)).1 (by decide)⟩

/-- C6: every entry of the mapping returned by holidays() has its
observed date inside the inclusive fiscal window, and a holiday whose
observed date falls outside the window is omitted silently —
add_holiday leaves the dictionary unchanged and raises nothing. -/
theorem C6_holiday_window_invariant :
    (∀ (fh : FederalHoliday) (l : List (String × Date × Date)), fh.holidays = some l →
      ∀ x ∈ l, fh.fy_start_date ≤ x.2.2 ∧ x.2.2 ≤ fh.fy_end_date) ∧
    (∀ (fh : FederalHoliday) (hols : List (String × Date × Date)) (name : String) (a : Date),
      ¬ (fh.fy_start_date ≤ FederalHoliday.observed_date a ∧
          FederalHoliday.observed_date a ≤ fh.fy_end_date) →
      fh.add_holiday hols name (some a) = hols) :=
  ⟨holidays_window_inv, fun _ _ _ a h => add_holiday_skip a h⟩

/-- Witness for C6: the Columbus Day entry of fiscal year 2026 lies in
the window. -/
theorem C6_holiday_window_invariant_witness :
    (("Columbus Day", (⟨2025, 10, 13⟩ : Date), (⟨2025, 10, 13⟩ : Date)) :
        String × Date × Date) ∈ (fh2026.holidays).getD [] ∧
    fh2026.fy_start_date ≤ (⟨2025, 10, 13⟩ : Date) ∧
    (⟨2025, 10, 13⟩ : Date) ≤ fh2026.fy_end_date := by
  have hsome : fh2026.holidays = some ((fh2026.holidays).getD []) := by decide
  have hmem : (("Columbus Day", (⟨2025, 10, 13⟩ : Date), (⟨2025, 10, 13⟩ : Date)) :
      String × Date × Date) ∈ (fh2026.holidays).getD [] := by decide
  exact ⟨hmem, C6_holiday_window_invariant.1 fh2026 _ hsome _ hmem⟩

/-- C7: each of the three range-counting operations returns 0
immediately when the (already date-normalized) start exceeds the end. -/
theorem C7_inverted_range_counts_zero (fy : FiscalYear) (s e : Date) (use_observed : Bool)
    (h : e < s) :
    fy.count_weekends s e = some 0 ∧ fy.count_holidays s e use_observed = some 0 ∧
      fy.count_workdays s e use_observed = some 0 := by
  refine ⟨?_, ?_, ?_⟩
  · unfold FiscalYear.count_weekends
    rw [if_pos h]
  · simp only [FiscalYear.count_holidays]
    rw [if_pos h]
    rfl
  · simp only [FiscalYear.count_workdays]
    rw [if_pos h]
    rfl

/-- Witness for C7 on the inverted range 2025-10-02 .. 2025-10-01. -/
theorem C7_inverted_range_counts_zero_witness :
    (Date.mk 2025 10 1 < Date.mk 2025 10 2) ∧
    (fyOct2025.count_weekends ⟨2025, 10, 2⟩ ⟨2025, 10, 1⟩ = some 0 ∧
      fyOct2025.count_holidays ⟨2025, 10, 2⟩ ⟨2025, 10, 1⟩ true = some 0 ∧
      fyOct2025.count_workdays ⟨2025, 10, 2⟩ ⟨2025, 10, 1⟩ true = some 0) :=
  ⟨by decide,
    C7_inverted_range_counts_zero fyOct2025 ⟨2025, 10, 2⟩ ⟨2025, 10, 1⟩ true (by decide)⟩

/-- C9 counterexample: FederalHoliday.__init__ has no boundary handler,
so constructing it for fiscal year 0 lets the ValueError of
date(-1, 10, 1) escape to the caller, contradicting the claim that no
public operation raises. -/
theorem C9_init_raises : FederalHoliday.init 0 = .error .valueError := by decide

/-- C9 (amended): the public operations that do carry a try/except
boundary catch internal failures and yield None (or a value) instead of
raising: the counting operations always produce a result, and the
queries whose bodies raise internally (mixed date/datetime arithmetic)
all return None rather than propagating the TypeError. -/
theorem C9_boundary_guards :
    (∀ (fy : FiscalYear) (s e : Date), (fy.count_weekends s e).isSome) ∧
    (∀ fy : FiscalYear, fy.fiscal_day_of_year = none) ∧
    (∀ fy : FiscalYear, fy.calendar_day_of_year = none) ∧
    (∀ fy : FiscalYear, fy.fiscal_elapsed_days = none) ∧
    (∀ fy : FiscalYear, fy.fiscal_percent_elapsed = none) ∧
    (∀ fy : FiscalYear, fy.calendar_remaining_days = none) := by
  refine ⟨?_, fun _ => rfl, fun _ => rfl, fun _ => rfl, fun _ => rfl, fun _ => rfl⟩
  intro fy s e
  unfold FiscalYear.count_weekends
  split <;> rfl

/-- C8: the claim says fiscal_percent_elapsed is monotone in [0, 100]
and reaches 100 at the FY end date.  fiscal_elapsed_days raises
TypeError (date minus datetime, then max of int and timedelta) and
returns None, so the percentage divides None by the day count, raises
again, and every call returns None — also at the FY end date
2026-09-30 where the claim expects exactly 100. -/
theorem C8_fiscal_percent_elapsed_returns_none :
    (∀ fy : FiscalYear, fy.fiscal_percent_elapsed = none) ∧
    FiscalYear.bind ⟨2026, 9, 30⟩ = .ok fySep2026 ∧
    fySep2026.fiscal_percent_elapsed = none :=
  ⟨fun _ => rfl, by decide, rfl⟩

/-- C10: for every constructible fiscal year, holidays() returns a
mapping with exactly eleven distinct entries — the window filter of
add_holiday never drops any of the eleven fixed holidays. -/
theorem C10_holidays_eleven_entries (fy : Int) (fh : FederalHoliday)
    (h : FederalHoliday.init fy = .ok fh) :
    ∃ l, fh.holidays = some l ∧ l.length = 11 ∧ (l.map Prod.fst).Nodup := by
  obtain ⟨l, hl, hlen, hnames⟩ := holidays_eq_of_init h
  refine ⟨l, hl, hlen, ?_⟩
  rw [hnames]
  decide

/-- Witness for C10 at fiscal year 2026. -/
theorem C10_holidays_eleven_entries_witness :
    ((fh2026.holidays).getD []).length = 11 := by
  obtain ⟨l, hl, hlen, -⟩ := C10_holidays_eleven_entries 2026 fh2026 (by decide)
  rw [hl]
  exact hlen

end Tempus
